import Mathlib

/-!
Verification of the RVVM RISC-V CPU decode/dispatch core (`src/riscv_cpu.h`)
against its natural-language specification.

The header file provides the register-file accessors, the compressed-register
translation, the opcode-identifier macros and the width-specific constants
(`SHAMT_BITS`, `DIV_OVERFLOW_RS1`).  The instruction handlers, the opcode-table
installers and the decoder initialisation live in companion `.c` files that are
not part of the given sources; where a claim depends on them they are modelled
from the specification, each such definition marked `Modelled from the spec:`.

Machine values are represented as `Nat` bit patterns, with explicit reduction
modulo `2 ^ w` where the C code's fixed-width types wrap.
-/

namespace RVVM

/-- Floating-point status field states of the `fs` CSR field
(`FS_OFF`/`FS_INITIAL`/`FS_CLEAN`/`FS_DIRTY` from `riscv_csr.h`). -/
inductive FS where
  | off
  | initial
  | clean
  | dirty
deriving DecidableEq, Repr

/-- The hart state touched by the accessors of `riscv_cpu.h`: the integer
register file, the floating-point register file (64-bit slots held as bit
patterns), the floating-point status field and the program counter. -/
structure Hart where
  registers : Fin 32 → Nat
  fpu_registers : Fin 32 → Nat
  fs : FS
  pc : Nat
deriving Repr

/-- A hart with all registers zeroed, `fs = off`, `pc = 0`. -/
def hart0 : Hart :=
  { registers := fun _ => 0, fpu_registers := fun _ => 0, fs := FS.off, pc := 0 }

/-- Accessor `riscv_read_register` (riscv_cpu.h:87-90): returns `vm->registers[reg]`. -/
def riscv_read_register (vm : Hart) (reg : Fin 32) : Nat :=
  vm.registers reg

/-- Accessor `riscv_write_register` (riscv_cpu.h:97-100): stores
`vm->registers[reg] = data`, with no special case for any register index. -/
def riscv_write_register (vm : Hart) (reg : Fin 32) (data : Nat) : Hart :=
  { vm with registers := Function.update vm.registers reg data }

/-- Modelled from the spec: `REGISTER_X8` from `rvvm.h` (not among the given
sources), the index of architectural register x8; the spec fixes the
compressed-register offset at 8 (registers 8-15). -/
def REGISTER_X8 : Nat := 8

/-- Function `riscv_c_reg` (riscv_cpu.h:133-137): translates a compressed 3-bit register
encoding into the normal register index, `REGISTER_X8 + reg`. -/
def riscv_c_reg (reg : Nat) : Nat := REGISTER_X8 + reg

/-- Constant `SHAMT_BITS` (riscv_cpu.h:65 and 77): 6 under RV64, 5 under RV32. -/
def SHAMT_BITS (rv64 : Bool) : Nat := if rv64 then 6 else 5

/-- Constant `DIV_OVERFLOW_RS1` for RV32 (riscv_cpu.h:78): the bit pattern
`0x80000000` read as a signed 32-bit value. -/
def DIV_OVERFLOW_RS1_RV32 : Int := (0x80000000 : Int) - 2 ^ 32

/-- Constant `DIV_OVERFLOW_RS1` for RV64 (riscv_cpu.h:66): the bit pattern
`0x8000000000000000` read as a signed 64-bit value. -/
def DIV_OVERFLOW_RS1_RV64 : Int := (0x8000000000000000 : Int) - 2 ^ 64

/-- The signed (two's-complement) reading of a `w`-bit pattern. -/
def toSigned (w x : Nat) : Int :=
  if x < 2 ^ (w - 1) then (x : Int) else (x : Int) - 2 ^ w

/-- The `w`-bit pattern of an integer, reducing modulo `2 ^ w`. -/
def toBits (w : Nat) (i : Int) : Nat :=
  (i % (2 ^ w : Int)).toNat

/-- The canonical single-precision quiet NaN bit pattern. -/
def QNAN32 : Nat := 0x7FC00000

/-- Modelled from the spec: `write_float_nanbox` from `mem_ops.h` (not among
the given sources).  A single-precision value is stored inside the 64-bit slot
with the upper 32 bits set to all-ones. -/
def write_float_nanbox (val : Nat) : Nat :=
  0xFFFFFFFF * 2 ^ 32 + val % 2 ^ 32

/-- Modelled from the spec: `read_float_nanbox` from `mem_ops.h` (not among
the given sources).  A read validates that the upper 32 bits of the slot are
all-ones and substitutes the canonical quiet NaN if they are not. -/
def read_float_nanbox (slot : Nat) : Nat :=
  if slot / 2 ^ 32 = 0xFFFFFFFF then slot % 2 ^ 32 else QNAN32

/-- Modelled from the spec: `fpu_set_fs` from `riscv_csr.h` (not among the
given sources), writing the CSR floating-point status field. -/
def fpu_set_fs (vm : Hart) (fs : FS) : Hart :=
  { vm with fs := fs }

/-- Accessor `fpu_read_register32` (riscv_cpu.h:103-107): reads the NaN-boxed
single-precision bit pattern out of a 64-bit slot. -/
def fpu_read_register32 (vm : Hart) (reg : Fin 32) : Nat :=
  read_float_nanbox (vm.fpu_registers reg)

/-- Accessor `fpu_write_register32` (riscv_cpu.h:109-116): sets `fs` to Dirty and
stores the single-precision value NaN-boxed into the 64-bit slot. -/
def fpu_write_register32 (vm : Hart) (reg : Fin 32) (val : Nat) : Hart :=
  let vm1 := fpu_set_fs vm FS.dirty
  { vm1 with fpu_registers := Function.update vm1.fpu_registers reg (write_float_nanbox val) }

/-- Accessor `fpu_read_register64` (riscv_cpu.h:118-122): reads the raw 64-bit slot. -/
def fpu_read_register64 (vm : Hart) (reg : Fin 32) : Nat :=
  vm.fpu_registers reg

/-- Accessor `fpu_write_register64` (riscv_cpu.h:124-129): sets `fs` to Dirty and
stores the 64-bit value directly. -/
def fpu_write_register64 (vm : Hart) (reg : Fin 32) (val : Nat) : Hart :=
  let vm1 := fpu_set_fs vm FS.dirty
  { vm1 with fpu_registers := Function.update vm1.fpu_registers reg (val % 2 ^ 64) }

/-!
## M-extension division semantics

The DIV/DIVU/REM/REMU handlers live in `riscv_m.c`, which is not among the
given sources; `riscv_cpu.h` only supplies their opcode identifiers
(`RVM_DIV` .. `RVM_REMU`) and the `DIV_OVERFLOW_RS1` constant.  The handlers
are modelled from the spec.  Operands and results are `w`-bit patterns.
-/

/-- Whether a signed division `x / y` of `w`-bit patterns is the overflow
case: dividend = minimum representable signed value (`DIV_OVERFLOW_RS1`),
divisor = -1. -/
def div_overflow (w x y : Nat) : Prop :=
  toSigned w x = -(2 ^ (w - 1) : Int) ∧ toSigned w y = -1

instance (w x y : Nat) : Decidable (div_overflow w x y) := by
  unfold div_overflow; infer_instance

/-- Modelled from the spec: the DIV handler of `riscv_m.c`.  Signed division
truncating toward zero; divisor 0 yields all-ones; overflow (minimum signed
dividend, divisor -1) yields the dividend unchanged.  Never traps. -/
def rvm_div (w x y : Nat) : Nat :=
  if y = 0 then 2 ^ w - 1
  else if div_overflow w x y then x
  else toBits w (Int.tdiv (toSigned w x) (toSigned w y))

/-- Modelled from the spec: the DIVU handler of `riscv_m.c`.  Unsigned
division; divisor 0 yields all-ones.  Never traps. -/
def rvm_divu (w x y : Nat) : Nat :=
  if y = 0 then 2 ^ w - 1 else x / y

/-- Modelled from the spec: the REM handler of `riscv_m.c`.  Signed remainder
(sign of the dividend); divisor 0 yields the dividend; overflow yields 0.
Never traps. -/
def rvm_rem (w x y : Nat) : Nat :=
  if y = 0 then x
  else if div_overflow w x y then 0
  else toBits w (Int.tmod (toSigned w x) (toSigned w y))

/-- Modelled from the spec: the REMU handler of `riscv_m.c`.  Unsigned
remainder; divisor 0 yields the dividend.  Never traps. -/
def rvm_remu (w x y : Nat) : Nat :=
  if y = 0 then x else x % y

/-!
## Shift semantics

The shift handlers live in `riscv_i.c`, not among the given sources;
`riscv_cpu.h` supplies `SHAMT_BITS` (5 for RV32, 6 for RV64).  The handlers
are modelled from the spec: the shift amount operand is masked to
`SHAMT_BITS` bits before the shift is performed.
-/

/-- Modelled from the spec: a shift handler's masking of its shift-amount
operand to `SHAMT_BITS` bits (`amt % 2 ^ SHAMT_BITS`). -/
def shamt_mask (rv64 : Bool) (amt : Nat) : Nat :=
  amt % 2 ^ SHAMT_BITS rv64

/-- The integer width in bits, 64 under RV64, 32 under RV32. -/
def xlen_bits (rv64 : Bool) : Nat := if rv64 then 64 else 32

/-- Modelled from the spec: the SLL/SLLI handler.  Left shift by the masked
amount, wrapping modulo `2 ^ w`. -/
def rvi_sll (rv64 : Bool) (x amt : Nat) : Nat :=
  x * 2 ^ shamt_mask rv64 amt % 2 ^ xlen_bits rv64

/-- Modelled from the spec: the SRL/SRLI handler.  Logical right shift by the
masked amount. -/
def rvi_srl (rv64 : Bool) (x amt : Nat) : Nat :=
  x % 2 ^ xlen_bits rv64 / 2 ^ shamt_mask rv64 amt

/-- Modelled from the spec: the SRA/SRAI handler.  Arithmetic right shift of
the signed reading by the masked amount (floor division by the power of two),
returned as a `w`-bit pattern. -/
def rvi_sra (rv64 : Bool) (x amt : Nat) : Nat :=
  toBits (xlen_bits rv64) ((toSigned (xlen_bits rv64) (x % 2 ^ xlen_bits rv64)) / 2 ^ shamt_mask rv64 amt)

/-!
## Opcode identifiers (riscv_cpu.h:139-295)

For normal 32-bit instructions the identifier is
`funct7[25] funct3[14:12] opcode[6:2]` (9 bits, 512 slots); for compressed
16-bit instructions it is `funct3[15:13] opcode[1:0]` (5 bits, 32 slots).
The macro values below are copied from the header.
-/

def RVI_LUI : Nat := 0xD
def RVI_AUIPC : Nat := 0x5
def RVI_JAL : Nat := 0x1B
def RVI_SLLI : Nat := 0x24
def RVI_SRLI_SRAI : Nat := 0xA4
def RVI_ADD_SUB : Nat := 0xC
def RVI_SLL : Nat := 0x2C
def RVI_SLT : Nat := 0x4C
def RVI_SLTU : Nat := 0x6C
def RVI_XOR : Nat := 0x8C
def RVI_SRL_SRA : Nat := 0xAC
def RVI_OR : Nat := 0xCC
def RVI_AND : Nat := 0xEC
def RVI_JALR : Nat := 0x19
def RVI_BEQ : Nat := 0x18
def RVI_BNE : Nat := 0x38
def RVI_BLT : Nat := 0x98
def RVI_BGE : Nat := 0xB8
def RVI_BLTU : Nat := 0xD8
def RVI_BGEU : Nat := 0xF8
def RVI_LB : Nat := 0x0
def RVI_LH : Nat := 0x20
def RVI_LW : Nat := 0x40
def RVI_LBU : Nat := 0x80
def RVI_LHU : Nat := 0xA0
def RVI_SB : Nat := 0x8
def RVI_SH : Nat := 0x28
def RVI_SW : Nat := 0x48
def RVI_ADDI : Nat := 0x4
def RVI_SLTI : Nat := 0x44
def RVI_SLTIU : Nat := 0x64
def RVI_XORI : Nat := 0x84
def RVI_ORI : Nat := 0xC4
def RVI_ANDI : Nat := 0xE4

def RV64I_ADDIW : Nat := 0x6
def RV64I_SLLIW : Nat := 0x26
def RV64I_SRLIW_SRAIW : Nat := 0xA6
def RV64I_ADDW_SUBW : Nat := 0xE
def RV64I_SLLW : Nat := 0x2E
def RV64I_SRLW_SRAW : Nat := 0xAE
def RV64I_LWU : Nat := 0xC0
def RV64I_LD : Nat := 0x60
def RV64I_SD : Nat := 0x68

def RVC_ADDI4SPN : Nat := 0x0
def RVC_FLD : Nat := 0x4
def RVC_LW : Nat := 0x8
def RVC_FLW : Nat := 0xC
def RVC_RESERVED1 : Nat := 0x10
def RVC_FSD : Nat := 0x14
def RVC_SW : Nat := 0x18
def RVC_FSW : Nat := 0x1C
def RV64C_SD : Nat := 0x1C
def RV64C_LD : Nat := 0xC
def RVC_ADDI : Nat := 0x1
def RVC_JAL : Nat := 0x5
def RVC_LI : Nat := 0x9
def RVC_ADDI16SP_LUI : Nat := 0xD
def RVC_ALOPS1 : Nat := 0x11
def RVC_J : Nat := 0x15
def RVC_BEQZ : Nat := 0x19
def RVC_BNEZ : Nat := 0x1D
def RV64C_ADDIW : Nat := 0x5
def RVC_SLLI : Nat := 0x2
def RVC_FLDSP : Nat := 0x6
def RVC_LWSP : Nat := 0xA
def RVC_FLWSP : Nat := 0xE
def RVC_ALOPS2 : Nat := 0x12
def RVC_FSDSP : Nat := 0x16
def RVC_SWSP : Nat := 0x1A
def RVC_FSWSP : Nat := 0x1E
def RV64C_LDSP : Nat := 0xE
def RV64C_SDSP : Nat := 0x1E

def RVM_MUL : Nat := 0x10C
def RVM_MULH : Nat := 0x12C
def RVM_MULHSU : Nat := 0x14C
def RVM_MULHU : Nat := 0x16C
def RVM_DIV : Nat := 0x18C
def RVM_DIVU : Nat := 0x1AC
def RVM_REM : Nat := 0x1CC
def RVM_REMU : Nat := 0x1EC

def RV64M_MULW : Nat := 0x10E
def RV64M_DIVW : Nat := 0x18E
def RV64M_DIVUW : Nat := 0x1AE
def RV64M_REMW : Nat := 0x1CE
def RV64M_REMUW : Nat := 0x1EE

def RVA_ATOMIC_W : Nat := 0x4B
def RV64A_ATOMIC_D : Nat := 0x6B

/-!
## Opcode tables and installers

The installers and the decoder initialisation (`riscv_cpu.c`, `riscv_i.c`,
`riscv_c.c`, `riscv_m.c`, `riscv_a.c`) are not among the given sources; they
are modelled from the spec.  Handlers are represented as tags; a table slot
is `Option` so that "unset" is representable and the totality claim is about
the construction, not the type.
-/

/-- Tags for the full-width instruction handlers installed into the table. -/
inductive Handler where
  | illegal
  | lui | auipc | jal
  | slli | srli_srai | add_sub | sll | slt | sltu | xor_op | srl_sra | or_op | and_op
  | jalr | beq | bne | blt | bge | bltu | bgeu
  | lb | lh | lw | lbu | lhu | sb | sh | sw
  | addi | slti | sltiu | xori | ori | andi
  | addiw | slliw | srliw_sraiw | addw_subw | sllw | srlw_sraw | lwu | ld | sd
  | mul | mulh | mulhsu | mulhu | div | divu | rem | remu
  | mulw | divw | divuw | remw | remuw
  | atomic_w | atomic_d
deriving DecidableEq, Repr

/-- Tags for the compressed instruction handlers installed into the table. -/
inductive CHandler where
  | c_illegal
  | c_addi4spn | c_fld | c_lw | c_flw | c_ld | c_fsd | c_sw | c_fsw | c_sd
  | c_addi | c_jal | c_addiw | c_li | c_addi16sp_lui | c_alops1 | c_j | c_beqz | c_bnez
  | c_slli | c_fldsp | c_lwsp | c_flwsp | c_ldsp | c_alops2 | c_fsdsp | c_swsp
  | c_fswsp | c_sdsp
deriving DecidableEq, Repr

/-- The full-width opcode table: 512 slots (9-bit identifier), each either an
installed handler or unset. -/
def Table := Fin 512 → Option Handler

/-- The compressed opcode table: 32 slots (5-bit identifier). -/
def CTable := Fin 32 → Option CHandler

/-- Write one slot of the full table. -/
def tableSet (t : Table) (i : Nat) (h : Handler) : Table :=
  fun id => if id.val = i then some h else t id

/-- Write one slot of the compressed table. -/
def ctableSet (t : CTable) (i : Nat) (h : CHandler) : CTable :=
  fun id => if id.val = i then some h else t id

/-- Write `h` at the `count` slots `k * stride + op` for `k < count`
(the loop body shared by the U/J and I/S/B installers). -/
def installSpan (t : Table) (op : Nat) (h : Handler) (stride : Nat) : Nat → Table
  | 0 => t
  | k + 1 => tableSet (installSpan t op h stride k) (k * stride + op) h

/-- Modelled from the spec: `riscv_install_opcode_R` (riscv_cpu.h:29,
implemented in `riscv_cpu.c`).  R-type instructions carry funct3 and the
funct7 bit in their identifier, so the handler is written at exactly the
fully-qualified slot. -/
def riscv_install_opcode_R (t : Table) (op : Nat) (h : Handler) : Table :=
  tableSet t op h

/-- Modelled from the spec: `riscv_install_opcode_UJ` (riscv_cpu.h:30).  U/J
formats have neither funct3 nor funct7, so the handler is smudged across all
16 identifiers `k * 32 + op` obtained by varying the funct3/funct7-derived
bits above the 5 opcode bits. -/
def riscv_install_opcode_UJ (t : Table) (op : Nat) (h : Handler) : Table :=
  installSpan t op h 32 16

/-- Modelled from the spec: `riscv_install_opcode_ISB` (riscv_cpu.h:31).
I/S/B formats carry funct3 but no funct7, so the handler is smudged across
the 2 identifiers `k * 256 + op` obtained by varying the funct7-derived
bit above the 8 funct3+opcode bits. -/
def riscv_install_opcode_ISB (t : Table) (op : Nat) (h : Handler) : Table :=
  installSpan t op h 256 2

/-- Modelled from the spec: `riscv_install_opcode_C` (riscv_cpu.h:32).  The
compressed identifier is fully qualified (funct3 + opcode), one slot. -/
def riscv_install_opcode_C (t : CTable) (op : Nat) (h : CHandler) : CTable :=
  ctableSet t op h

/-- One install call into the full table, tagged by installer variant. -/
inductive InstallOp where
  | r (op : Nat) (h : Handler)
  | uj (op : Nat) (h : Handler)
  | isb (op : Nat) (h : Handler)

/-- Apply one install call. -/
def applyOp (t : Table) : InstallOp → Table
  | InstallOp.r op h => riscv_install_opcode_R t op h
  | InstallOp.uj op h => riscv_install_opcode_UJ t op h
  | InstallOp.isb op h => riscv_install_opcode_ISB t op h

/-- Apply a sequence of install calls in order. -/
def applyOps (t : Table) (l : List InstallOp) : Table :=
  l.foldl applyOp t

/-- Apply a sequence of compressed install calls in order. -/
def applyCOps (t : CTable) (l : List (Nat × CHandler)) : CTable :=
  l.foldl (fun t p => riscv_install_opcode_C t p.1 p.2) t

/-- Modelled from the spec: the install calls made by `riscv32i_init`
(`riscv_i.c`), using the identifier macros of riscv_cpu.h:151-187. -/
def rv32i_ops : List InstallOp := [
  InstallOp.uj RVI_LUI Handler.lui,
  InstallOp.uj RVI_AUIPC Handler.auipc,
  InstallOp.uj RVI_JAL Handler.jal,
  InstallOp.r RVI_SLLI Handler.slli,
  InstallOp.r RVI_SRLI_SRAI Handler.srli_srai,
  InstallOp.r RVI_ADD_SUB Handler.add_sub,
  InstallOp.r RVI_SLL Handler.sll,
  InstallOp.r RVI_SLT Handler.slt,
  InstallOp.r RVI_SLTU Handler.sltu,
  InstallOp.r RVI_XOR Handler.xor_op,
  InstallOp.r RVI_SRL_SRA Handler.srl_sra,
  InstallOp.r RVI_OR Handler.or_op,
  InstallOp.r RVI_AND Handler.and_op,
  InstallOp.isb RVI_JALR Handler.jalr,
  InstallOp.isb RVI_BEQ Handler.beq,
  InstallOp.isb RVI_BNE Handler.bne,
  InstallOp.isb RVI_BLT Handler.blt,
  InstallOp.isb RVI_BGE Handler.bge,
  InstallOp.isb RVI_BLTU Handler.bltu,
  InstallOp.isb RVI_BGEU Handler.bgeu,
  InstallOp.isb RVI_LB Handler.lb,
  InstallOp.isb RVI_LH Handler.lh,
  InstallOp.isb RVI_LW Handler.lw,
  InstallOp.isb RVI_LBU Handler.lbu,
  InstallOp.isb RVI_LHU Handler.lhu,
  InstallOp.isb RVI_SB Handler.sb,
  InstallOp.isb RVI_SH Handler.sh,
  InstallOp.isb RVI_SW Handler.sw,
  InstallOp.isb RVI_ADDI Handler.addi,
  InstallOp.isb RVI_SLTI Handler.slti,
  InstallOp.isb RVI_SLTIU Handler.sltiu,
  InstallOp.isb RVI_XORI Handler.xori,
  InstallOp.isb RVI_ORI Handler.ori,
  InstallOp.isb RVI_ANDI Handler.andi]

/-- Modelled from the spec: the additional install calls made by
`riscv64i_init`, using the RV64I-only identifiers of riscv_cpu.h:189-203. -/
def rv64i_extra_ops : List InstallOp := [
  InstallOp.r RV64I_ADDIW Handler.addiw,
  InstallOp.r RV64I_SLLIW Handler.slliw,
  InstallOp.r RV64I_SRLIW_SRAIW Handler.srliw_sraiw,
  InstallOp.r RV64I_ADDW_SUBW Handler.addw_subw,
  InstallOp.r RV64I_SLLW Handler.sllw,
  InstallOp.r RV64I_SRLW_SRAW Handler.srlw_sraw,
  InstallOp.isb RV64I_LWU Handler.lwu,
  InstallOp.isb RV64I_LD Handler.ld,
  InstallOp.isb RV64I_SD Handler.sd]

/-- Modelled from the spec: the install calls made by `riscv32m_init`
(`riscv_m.c`), riscv_cpu.h:242-253. -/
def rv32m_ops : List InstallOp := [
  InstallOp.r RVM_MUL Handler.mul,
  InstallOp.r RVM_MULH Handler.mulh,
  InstallOp.r RVM_MULHSU Handler.mulhsu,
  InstallOp.r RVM_MULHU Handler.mulhu,
  InstallOp.r RVM_DIV Handler.div,
  InstallOp.r RVM_DIVU Handler.divu,
  InstallOp.r RVM_REM Handler.rem,
  InstallOp.r RVM_REMU Handler.remu]

/-- Modelled from the spec: the additional install calls made by
`riscv64m_init`, riscv_cpu.h:255-264. -/
def rv64m_extra_ops : List InstallOp := [
  InstallOp.r RV64M_MULW Handler.mulw,
  InstallOp.r RV64M_DIVW Handler.divw,
  InstallOp.r RV64M_DIVUW Handler.divuw,
  InstallOp.r RV64M_REMW Handler.remw,
  InstallOp.r RV64M_REMUW Handler.remuw]

/-- Modelled from the spec: the install calls made by `riscv32a_init` /
`riscv64a_init` (`riscv_a.c`), riscv_cpu.h:266-272. -/
def rv32a_ops : List InstallOp := [InstallOp.isb RVA_ATOMIC_W Handler.atomic_w]

def rv64a_extra_ops : List InstallOp := [InstallOp.isb RV64A_ATOMIC_D Handler.atomic_d]

/-- Modelled from the spec: table state before any extension module runs —
every slot pre-populated with the illegal-instruction handler
(`riscv_illegal_insn`, riscv_cpu.h:55). -/
def baseTable : Table := fun _ => some Handler.illegal

/-- Modelled from the spec: compressed table state before any extension
module runs — every slot holds `riscv_c_illegal_insn` (riscv_cpu.h:56). -/
def baseCTable : CTable := fun _ => some CHandler.c_illegal

/-- Modelled from the spec: the full-width table built by
`riscv_decoder_init_rv32` — default fill, then the I, M, A module installs. -/
def rv32_table : Table :=
  applyOps baseTable (rv32i_ops ++ rv32m_ops ++ rv32a_ops)

/-- Modelled from the spec: the full-width table built by
`riscv_decoder_init_rv64` — default fill, then the I, M, A module installs
together with their RV64-only identifiers. -/
def rv64_table : Table :=
  applyOps baseTable
    (rv32i_ops ++ rv64i_extra_ops ++ rv32m_ops ++ rv64m_extra_ops ++ rv32a_ops ++ rv64a_extra_ops)

/-- Modelled from the spec: the install calls made by `riscv32c_init`
(`riscv_c.c`), riscv_cpu.h:205-240 (the RV32-only encodings FLW/FSW/JAL/
FLWSP/FSWSP are live). -/
def rv32c_ops : List (Nat × CHandler) := [
  (RVC_ADDI4SPN, CHandler.c_addi4spn),
  (RVC_FLD, CHandler.c_fld),
  (RVC_LW, CHandler.c_lw),
  (RVC_FLW, CHandler.c_flw),
  (RVC_FSD, CHandler.c_fsd),
  (RVC_SW, CHandler.c_sw),
  (RVC_FSW, CHandler.c_fsw),
  (RVC_ADDI, CHandler.c_addi),
  (RVC_JAL, CHandler.c_jal),
  (RVC_LI, CHandler.c_li),
  (RVC_ADDI16SP_LUI, CHandler.c_addi16sp_lui),
  (RVC_ALOPS1, CHandler.c_alops1),
  (RVC_J, CHandler.c_j),
  (RVC_BEQZ, CHandler.c_beqz),
  (RVC_BNEZ, CHandler.c_bnez),
  (RVC_SLLI, CHandler.c_slli),
  (RVC_FLDSP, CHandler.c_fldsp),
  (RVC_LWSP, CHandler.c_lwsp),
  (RVC_FLWSP, CHandler.c_flwsp),
  (RVC_ALOPS2, CHandler.c_alops2),
  (RVC_FSDSP, CHandler.c_fsdsp),
  (RVC_SWSP, CHandler.c_swsp),
  (RVC_FSWSP, CHandler.c_fswsp)]

/-- Modelled from the spec: the install calls made by `riscv64c_init` —
LD/SD/ADDIW/LDSP/SDSP replace FLW/FSW/JAL/FLWSP/FSWSP at the same
identifiers (riscv_cpu.h:213-240). -/
def rv64c_ops : List (Nat × CHandler) := [
  (RVC_ADDI4SPN, CHandler.c_addi4spn),
  (RVC_FLD, CHandler.c_fld),
  (RVC_LW, CHandler.c_lw),
  (RV64C_LD, CHandler.c_ld),
  (RVC_FSD, CHandler.c_fsd),
  (RVC_SW, CHandler.c_sw),
  (RV64C_SD, CHandler.c_sd),
  (RVC_ADDI, CHandler.c_addi),
  (RV64C_ADDIW, CHandler.c_addiw),
  (RVC_LI, CHandler.c_li),
  (RVC_ADDI16SP_LUI, CHandler.c_addi16sp_lui),
  (RVC_ALOPS1, CHandler.c_alops1),
  (RVC_J, CHandler.c_j),
  (RVC_BEQZ, CHandler.c_beqz),
  (RVC_BNEZ, CHandler.c_bnez),
  (RVC_SLLI, CHandler.c_slli),
  (RVC_FLDSP, CHandler.c_fldsp),
  (RVC_LWSP, CHandler.c_lwsp),
  (RV64C_LDSP, CHandler.c_ldsp),
  (RVC_ALOPS2, CHandler.c_alops2),
  (RVC_FSDSP, CHandler.c_fsdsp),
  (RVC_SWSP, CHandler.c_swsp),
  (RV64C_SDSP, CHandler.c_sdsp)]

/-- Modelled from the spec: the compressed table built by
`riscv_decoder_init_rv32`. -/
def rv32c_table : CTable := applyCOps baseCTable rv32c_ops

/-- Modelled from the spec: the compressed table built by
`riscv_decoder_init_rv64`. -/
def rv64c_table : CTable := applyCOps baseCTable rv64c_ops

/-!
## Integer instruction execution

The base-integer handlers live in `riscv_i.c`, not among the given sources;
they are modelled from the spec: read source registers, compute wrapping
modulo `2 ^ w`, write the destination through `riscv_write_register`, and
advance the program counter.  They never touch the floating-point state.
-/

/-- The ALU operations of the base integer ISA. -/
inductive ALUOp where
  | add | sub | slt | sltu | xorb | orb | andb | sll | srl | sra
deriving DecidableEq, Repr

/-- Modelled from the spec: the result computed by a base-integer ALU
handler, wrapping modulo `2 ^ w`. -/
def aluCompute (rv64 : Bool) (o : ALUOp) (a b : Nat) : Nat :=
  let w := xlen_bits rv64
  match o with
  | ALUOp.add => (a + b) % 2 ^ w
  | ALUOp.sub => toBits w ((a : Int) - (b : Int))
  | ALUOp.slt => if toSigned w (a % 2 ^ w) < toSigned w (b % 2 ^ w) then 1 else 0
  | ALUOp.sltu => if a % 2 ^ w < b % 2 ^ w then 1 else 0
  | ALUOp.xorb => (a % 2 ^ w) ^^^ (b % 2 ^ w)
  | ALUOp.orb => (a % 2 ^ w) ||| (b % 2 ^ w)
  | ALUOp.andb => (a % 2 ^ w) &&& (b % 2 ^ w)
  | ALUOp.sll => rvi_sll rv64 a b
  | ALUOp.srl => rvi_srl rv64 a b
  | ALUOp.sra => rvi_sra rv64 a b

/-- A base-integer instruction: register-register, register-immediate, or
upper-immediate form. -/
inductive IntInsn where
  | op (o : ALUOp) (rd rs1 rs2 : Fin 32)
  | opimm (o : ALUOp) (rd rs1 : Fin 32) (imm : Nat)
  | lui (rd : Fin 32) (imm : Nat)
deriving Repr

/-- The dispatch loop's default program-counter advance for a full-width
instruction (+4, wrapping at the register width). -/
def advance_pc (rv64 : Bool) (vm : Hart) : Hart :=
  { vm with pc := (vm.pc + 4) % 2 ^ xlen_bits rv64 }

/-- Modelled from the spec: executing one base-integer instruction — reads
through `riscv_read_register`, writes through `riscv_write_register`,
advances the program counter. -/
def execIntInsn (rv64 : Bool) (vm : Hart) : IntInsn → Hart
  | IntInsn.op o rd rs1 rs2 =>
      advance_pc rv64 (riscv_write_register vm rd
        (aluCompute rv64 o (riscv_read_register vm rs1) (riscv_read_register vm rs2)))
  | IntInsn.opimm o rd rs1 imm =>
      advance_pc rv64 (riscv_write_register vm rd
        (aluCompute rv64 o (riscv_read_register vm rs1) imm))
  | IntInsn.lui rd imm =>
      advance_pc rv64 (riscv_write_register vm rd (imm % 2 ^ xlen_bits rv64))

/-- Executing a sequence of base-integer instructions in order. -/
def execIntList (rv64 : Bool) (vm : Hart) (l : List IntInsn) : Hart :=
  l.foldl (execIntInsn rv64) vm

/-!
## Helper lemmas
-/

lemma tableSet_isSome (t : Table) (i : Nat) (h : Handler)
    (ht : ∀ id, (t id).isSome) : ∀ id, (tableSet t i h id).isSome := by
  intro id
  unfold tableSet
  split
  · rfl
  · exact ht id

lemma installSpan_isSome (t : Table) (op : Nat) (h : Handler) (stride : Nat)
    (ht : ∀ id, (t id).isSome) :
    ∀ count, ∀ id, (installSpan t op h stride count id).isSome := by
  intro count
  induction count with
  | zero => exact ht
  | succ n ih => exact tableSet_isSome _ _ _ ih

lemma applyOp_isSome (t : Table) (o : InstallOp)
    (ht : ∀ id, (t id).isSome) : ∀ id, (applyOp t o id).isSome := by
  cases o with
  | r op h => exact tableSet_isSome t op h ht
  | uj op h => exact installSpan_isSome t op h 32 ht 16
  | isb op h => exact installSpan_isSome t op h 256 ht 2

lemma applyOps_isSome (l : List InstallOp) (t : Table)
    (ht : ∀ id, (t id).isSome) : ∀ id, (applyOps t l id).isSome := by
  induction l generalizing t with
  | nil => exact ht
  | cons o rest ih => exact ih (applyOp t o) (applyOp_isSome t o ht)

lemma ctableSet_isSome (t : CTable) (i : Nat) (h : CHandler)
    (ht : ∀ id, (t id).isSome) : ∀ id, (ctableSet t i h id).isSome := by
  intro id
  unfold ctableSet
  split
  · rfl
  · exact ht id

lemma applyCOps_isSome (l : List (Nat × CHandler)) (t : CTable)
    (ht : ∀ id, (t id).isSome) : ∀ id, (applyCOps t l id).isSome := by
  induction l generalizing t with
  | nil => exact ht
  | cons p rest ih =>
      exact ih (riscv_install_opcode_C t p.1 p.2) (ctableSet_isSome t p.1 p.2 ht)

lemma installSpan_covers (t : Table) (op : Nat) (h : Handler) (stride : Nat)
    {count k : Nat} (hk : k < count) (id : Fin 512)
    (hid : id.val = k * stride + op) :
    installSpan t op h stride count id = some h := by
  induction count with
  | zero => omega
  | succ n ih =>
    show tableSet (installSpan t op h stride n) (n * stride + op) h id = some h
    unfold tableSet
    split
    · rfl
    · rcases Nat.lt_succ_iff_lt_or_eq.mp hk with h' | h'
      · exact ih h'
      · subst h'
        omega

lemma execIntInsn_fs (rv64 : Bool) (vm : Hart) (i : IntInsn) :
    (execIntInsn rv64 vm i).fs = vm.fs := by
  cases i <;> rfl

lemma execIntList_fs (rv64 : Bool) (l : List IntInsn) (vm : Hart) :
    (execIntList rv64 vm l).fs = vm.fs := by
  induction l generalizing vm with
  | nil => rfl
  | cons i rest ih =>
      show (execIntList rv64 (execIntInsn rv64 vm i) rest).fs = vm.fs
      rw [ih, execIntInsn_fs]

lemma toSigned_allones (w : Nat) (hw : 0 < w) : toSigned w (2 ^ w - 1) = -1 := by
  obtain ⟨v, rfl⟩ : ∃ v, w = v + 1 := ⟨w - 1, by omega⟩
  have h1 : (1 : Nat) ≤ 2 ^ (v + 1) := Nat.one_le_pow _ _ (by norm_num)
  have h2 : (1 : Nat) ≤ 2 ^ v := Nat.one_le_pow _ _ (by norm_num)
  have h3 : (2 : Nat) ^ (v + 1) = 2 ^ v * 2 := pow_succ 2 v
  unfold toSigned
  simp only [Nat.add_sub_cancel]
  rw [if_neg (by omega)]
  push_cast [h1]
  ring

lemma toSigned_minpat (w : Nat) (hw : 0 < w) :
    toSigned w (2 ^ (w - 1)) = -(2 ^ (w - 1) : Int) := by
  obtain ⟨v, rfl⟩ : ∃ v, w = v + 1 := ⟨w - 1, by omega⟩
  unfold toSigned
  simp only [Nat.add_sub_cancel]
  rw [if_neg (lt_irrefl _)]
  push_cast
  ring

lemma shifts_use_masked_amount (rv64 : Bool) (x a b : Nat)
    (hab : shamt_mask rv64 a = shamt_mask rv64 b) :
    rvi_sll rv64 x a = rvi_sll rv64 x b ∧
    rvi_srl rv64 x a = rvi_srl rv64 x b ∧
    rvi_sra rv64 x a = rvi_sra rv64 x b := by
  unfold rvi_sll rvi_srl rvi_sra
  rw [hab]
  exact ⟨rfl, rfl, rfl⟩

/-!
## Claim theorems
-/

/-- C1: For every possible identifier value in both opcode tables
(full-width and compressed), after table construction the lookup returns a
defined handler; slots not installed by an extension module hold the
illegal-instruction handler (e.g. identifier 0x3 of the full table and the
reserved compressed identifier 0x10), so decoding an arbitrary instruction
word never yields an unset table entry. -/
theorem decode_lookup_always_defined :
    (∀ id : Fin 512, (rv32_table id).isSome) ∧
    (∀ id : Fin 512, (rv64_table id).isSome) ∧
    (∀ id : Fin 32, (rv32c_table id).isSome) ∧
    (∀ id : Fin 32, (rv64c_table id).isSome) ∧
    rv32_table (0x3 : Fin 512) = some Handler.illegal ∧
    rv32c_table (0x10 : Fin 32) = some CHandler.c_illegal := by
  refine ⟨?_, ?_, ?_, ?_, ?_, ?_⟩
  · exact applyOps_isSome _ baseTable (fun _ => rfl)
  · exact applyOps_isSome _ baseTable (fun _ => rfl)
  · exact applyCOps_isSome _ baseCTable (fun _ => rfl)
  · exact applyCOps_isSome _ baseCTable (fun _ => rfl)
  · decide
  · decide

/-- C2 counterexample: the claim states that writes targeting register 0 are
discarded by every handler write path; but `riscv_write_register`
(riscv_cpu.h:97-100) stores unconditionally, so writing 5 to register 0 of a
zeroed hart leaves register 0 holding 5, not 0. -/
theorem reg0_write_not_discarded :
    riscv_read_register (riscv_write_register hart0 (0 : Fin 32) 5) (0 : Fin 32) = 5 ∧
    (riscv_write_register hart0 (0 : Fin 32) 5).registers (0 : Fin 32) ≠ 0 ∧
    (execIntInsn false hart0
        (IntInsn.opimm ALUOp.add (0 : Fin 32) (0 : Fin 32) 5)).registers (0 : Fin 32) = 5 := by
  refine ⟨?_, ?_, ?_⟩
  · simp [riscv_read_register, riscv_write_register]
  · simp [riscv_write_register]
  · decide

/-- C2 (amended): the register accessors do not special-case register 0:
`riscv_write_register` stores its data for every register index, including
register 0, and `riscv_read_register` returns the stored value — so the
hard-wired-zero invariant is not maintained by discarding writes within
these accessors. -/
theorem reg_accessors_store_unconditionally (vm : Hart) (reg : Fin 32) (data : Nat) :
    riscv_read_register (riscv_write_register vm reg data) reg = data ∧
    riscv_read_register vm reg = vm.registers reg := by
  constructor
  · simp [riscv_read_register, riscv_write_register]
  · rfl

/-- C6: `riscv_c_reg` maps every 3-bit compressed register field value `r`
to architectural register `r + 8`, and this mapping is a bijection of
{0..7} onto registers {8..15}. -/
theorem c_reg_offset8_bijection :
    (∀ r : Fin 8, riscv_c_reg r.val = r.val + 8) ∧
    Finset.image riscv_c_reg (Finset.range 8) = Finset.Icc 8 15 ∧
    (Finset.image riscv_c_reg (Finset.range 8)).card = 8 := by
  refine ⟨?_, by decide, by decide⟩
  intro r
  simp [riscv_c_reg, REGISTER_X8, Nat.add_comm]

/-- C10: the compressed identifiers 0xC, 0x1C and 0x5 are width-specific:
the macro values coincide (`RVC_FLW = RV64C_LD`, `RVC_FSW = RV64C_SD`,
`RVC_JAL = RV64C_ADDIW`), and after 32-bit initialisation they hold the
FLW/FSW/JAL handlers while after 64-bit initialisation they hold the
LD/SD/ADDIW handlers — a different handler at each such identifier. -/
theorem compressed_table_width_specific :
    RVC_FLW = RV64C_LD ∧ RVC_FSW = RV64C_SD ∧ RVC_JAL = RV64C_ADDIW ∧
    rv32c_table (0xC : Fin 32) = some CHandler.c_flw ∧
    rv64c_table (0xC : Fin 32) = some CHandler.c_ld ∧
    rv32c_table (0x1C : Fin 32) = some CHandler.c_fsw ∧
    rv64c_table (0x1C : Fin 32) = some CHandler.c_sd ∧
    rv32c_table (0x5 : Fin 32) = some CHandler.c_jal ∧
    rv64c_table (0x5 : Fin 32) = some CHandler.c_addiw ∧
    rv32c_table (0xC : Fin 32) ≠ rv64c_table (0xC : Fin 32) ∧
    rv32c_table (0x1C : Fin 32) ≠ rv64c_table (0x1C : Fin 32) ∧
    rv32c_table (0x5 : Fin 32) ≠ rv64c_table (0x5 : Fin 32) := by
  decide

/-- C3: for every dividend pattern `x` and zero divisor, DIV and DIVU yield
the all-ones pattern (whose signed reading is -1) and REM and REMU yield the
dividend unchanged, without trapping (the handlers are total functions). -/
theorem div_by_zero_semantics (w x : Nat) (hw : 0 < w) :
    rvm_div w x 0 = 2 ^ w - 1 ∧
    rvm_divu w x 0 = 2 ^ w - 1 ∧
    rvm_rem w x 0 = x ∧
    rvm_remu w x 0 = x ∧
    toSigned w (2 ^ w - 1) = -1 := by
  refine ⟨?_, ?_, ?_, ?_, toSigned_allones w hw⟩ <;>
    simp [rvm_div, rvm_divu, rvm_rem, rvm_remu]

/-- C3 witness: the spec's concrete test at width 32: `DIV 5, 0` yields the
all-ones pattern 0xFFFFFFFF and `REM 5, 0` yields 5. -/
theorem div_by_zero_semantics_witness :
    rvm_div 32 5 0 = 0xFFFFFFFF ∧ rvm_rem 32 5 0 = 5 := by
  have h := div_by_zero_semantics 32 5 (by norm_num)
  refine ⟨?_, h.2.2.1⟩
  rw [h.1]
  norm_num

/-- C4: for the signed-overflow case — dividend pattern `2 ^ (w - 1)`, whose
signed reading is the minimum representable value (`DIV_OVERFLOW_RS1`), and
divisor pattern all-ones, whose signed reading is -1 — DIV yields the
dividend unchanged and REM yields 0, without trapping. -/
theorem div_overflow_semantics (w : Nat) (hw : 0 < w) :
    rvm_div w (2 ^ (w - 1)) (2 ^ w - 1) = 2 ^ (w - 1) ∧
    rvm_rem w (2 ^ (w - 1)) (2 ^ w - 1) = 0 ∧
    toSigned w (2 ^ (w - 1)) = -(2 ^ (w - 1) : Int) ∧
    toSigned w (2 ^ w - 1) = -1 ∧
    toSigned 32 0x80000000 = DIV_OVERFLOW_RS1_RV32 ∧
    toSigned 64 0x8000000000000000 = DIV_OVERFLOW_RS1_RV64 := by
  have hne : 2 ^ w - 1 ≠ 0 := by
    have : (2 : Nat) ≤ 2 ^ w := Nat.one_lt_two_pow_iff.mpr (by omega)
    omega
  have hov : div_overflow w (2 ^ (w - 1)) (2 ^ w - 1) :=
    ⟨toSigned_minpat w hw, toSigned_allones w hw⟩
  refine ⟨?_, ?_, toSigned_minpat w hw, toSigned_allones w hw, by decide, by decide⟩
  · rw [rvm_div, if_neg hne, if_pos hov]
  · rw [rvm_rem, if_neg hne, if_pos hov]

/-- C4 witness: at width 32 with the `DIV_OVERFLOW_RS1` bit pattern
0x80000000 and divisor pattern 0xFFFFFFFF (signed -1), DIV returns the
dividend unchanged and REM returns 0. -/
theorem div_overflow_semantics_witness :
    rvm_div 32 0x80000000 0xFFFFFFFF = 0x80000000 ∧
    rvm_rem 32 0x80000000 0xFFFFFFFF = 0 := by
  have h := div_overflow_semantics 32 (by norm_num)
  norm_num at h
  exact ⟨h.1, h.2.1⟩

/-- C5: every shift handler masks its shift-amount operand to `SHAMT_BITS`
bits — 5 bits under 32-bit width, 6 bits under 64-bit width — before
shifting; in particular a shift amount of 40 behaves as a shift by 8 under
32-bit width. -/
theorem shift_amount_masking :
    SHAMT_BITS false = 5 ∧ SHAMT_BITS true = 6 ∧
    (∀ x amt, rvi_sll false x amt = rvi_sll false x (amt % 2 ^ 5) ∧
              rvi_srl false x amt = rvi_srl false x (amt % 2 ^ 5) ∧
              rvi_sra false x amt = rvi_sra false x (amt % 2 ^ 5)) ∧
    (∀ x amt, rvi_sll true x amt = rvi_sll true x (amt % 2 ^ 6) ∧
              rvi_srl true x amt = rvi_srl true x (amt % 2 ^ 6) ∧
              rvi_sra true x amt = rvi_sra true x (amt % 2 ^ 6)) ∧
    (∀ x, rvi_sll false x 40 = rvi_sll false x 8 ∧
          rvi_srl false x 40 = rvi_srl false x 8 ∧
          rvi_sra false x 40 = rvi_sra false x 8) := by
  refine ⟨rfl, rfl, ?_, ?_, ?_⟩
  · intro x amt
    exact shifts_use_masked_amount false x amt (amt % 2 ^ 5)
      (by simp [shamt_mask, SHAMT_BITS, Nat.mod_mod_of_dvd _ dvd_rfl])
  · intro x amt
    exact shifts_use_masked_amount true x amt (amt % 2 ^ 6)
      (by simp [shamt_mask, SHAMT_BITS, Nat.mod_mod_of_dvd _ dvd_rfl])
  · intro x
    exact shifts_use_masked_amount false x 40 8 (by decide)

/-- C7: writing a single-precision bit pattern through the NaN-boxed
accessor and reading it back through the same accessor returns the identical
bit pattern; and any 64-bit slot whose upper 32 bits are not all-ones reads
through the single-precision accessor as the canonical quiet NaN. -/
theorem nanbox_roundtrip_and_validation (vm : Hart) (reg : Fin 32) (val : Nat)
    (hval : val < 2 ^ 32) :
    fpu_read_register32 (fpu_write_register32 vm reg val) reg = val ∧
    (∀ slot, slot / 2 ^ 32 ≠ 0xFFFFFFFF → read_float_nanbox slot = QNAN32) := by
  constructor
  · have hv : val % 2 ^ 32 = val := Nat.mod_eq_of_lt hval
    show read_float_nanbox
      (Function.update vm.fpu_registers reg (write_float_nanbox val) reg) = val
    rw [Function.update_same]
    unfold write_float_nanbox read_float_nanbox
    rw [hv]
    have hdiv : (0xFFFFFFFF * 2 ^ 32 + val) / 2 ^ 32 = 0xFFFFFFFF := by
      rw [mul_comm, Nat.mul_add_div (by norm_num), Nat.div_eq_of_lt hval]
    rw [if_pos hdiv, mul_comm, Nat.mul_add_mod]
    exact hv
  · intro slot hslot
    unfold read_float_nanbox
    rw [if_neg hslot]

/-- C7 witness: round-tripping the bit pattern of 1.0f (0x3F800000) through
register f1 returns it identically, and the corrupted slot 12345 (upper 32
bits zero) reads as the canonical quiet NaN. -/
theorem nanbox_roundtrip_witness :
    fpu_read_register32 (fpu_write_register32 hart0 (1 : Fin 32) 0x3F800000) (1 : Fin 32)
      = 0x3F800000 ∧
    read_float_nanbox 12345 = QNAN32 := by
  have h := nanbox_roundtrip_and_validation hart0 (1 : Fin 32) 0x3F800000 (by norm_num)
  exact ⟨h.1, h.2 12345 (by norm_num)⟩

/-- C8: every floating-point register write — through the single-precision
or the double-precision accessor — sets the CSR floating-point status field
to Dirty, and executing any sequence of only integer instructions leaves
that field unchanged. -/
theorem fpu_write_dirty_int_preserves_fs :
    (∀ (vm : Hart) (reg : Fin 32) (val : Nat),
        (fpu_write_register32 vm reg val).fs = FS.dirty) ∧
    (∀ (vm : Hart) (reg : Fin 32) (val : Nat),
        (fpu_write_register64 vm reg val).fs = FS.dirty) ∧
    (∀ (rv64 : Bool) (vm : Hart) (l : List IntInsn),
        (execIntList rv64 vm l).fs = vm.fs) := by
  exact ⟨fun _ _ _ => rfl, fun _ _ _ => rfl, fun rv64 vm l => execIntList_fs rv64 l vm⟩

/-- C9: the U/J installer writes its handler into every table slot whose
identifier is consistent with the given opcode across all funct7/funct3
variations, and the I/S/B installer does so across the funct7-bit
variation. -/
theorem installers_cover_opcode_span (t : Table) (op : Nat) (h : Handler) :
    (∀ id : Fin 512, (∃ f7, f7 < 2 ∧ ∃ f3, f3 < 8 ∧ id.val = f7 * 256 + f3 * 32 + op) →
        riscv_install_opcode_UJ t op h id = some h) ∧
    (∀ id : Fin 512, (∃ f7, f7 < 2 ∧ id.val = f7 * 256 + op) →
        riscv_install_opcode_ISB t op h id = some h) := by
  constructor
  · rintro id ⟨f7, hf7, f3, hf3, hid⟩
    show installSpan t op h 32 16 id = some h
    exact installSpan_covers t op h 32 (show f7 * 8 + f3 < 16 by omega) id (by omega)
  · rintro id ⟨f7, hf7, hid⟩
    show installSpan t op h 256 2 id = some h
    exact installSpan_covers t op h 256 (show f7 < 2 from hf7) id (by omega)

/-- C9 witness: installing LUI (opcode 0xD) through the U/J installer covers
slot 77 = 2 * 32 + 0xD, and installing ADDI (identifier 0x4) through the
I/S/B installer covers slot 260 = 1 * 256 + 0x4. -/
theorem installers_cover_opcode_span_witness :
    riscv_install_opcode_UJ baseTable RVI_LUI Handler.lui (77 : Fin 512)
      = some Handler.lui ∧
    riscv_install_opcode_ISB baseTable RVI_ADDI Handler.addi (260 : Fin 512)
      = some Handler.addi := by
  constructor
  · exact (installers_cover_opcode_span baseTable RVI_LUI Handler.lui).1 (77 : Fin 512)
      ⟨0, by norm_num, 2, by norm_num, by decide⟩
  · exact (installers_cover_opcode_span baseTable RVI_ADDI Handler.addi).2 (260 : Fin 512)
      ⟨1, by norm_num, by decide⟩

end RVVM
